import Mathlib

/-!
Verification of the nfcarmor transaction-authorization pipeline.

The development shallowly embeds the repository's payment-authorization
code: `authService.ts` (PIN verification and the failed-attempt lockout),
`nfcService.ts` (device registration and lookup), the transaction service
(risk scoring, account-status and daily-limit checks, status decision and
persistence) and the `handlePayment` driver from `Dashboard.tsx`.

Modelling conventions:
* currency amounts are rationals (the source uses JS numbers with decimal
  literals such as 0.01; all comparisons in the pipeline are order
  comparisons, faithfully mirrored on `Rat`);
* timestamps are integers (milliseconds since the epoch, as produced by
  `Date.now()`); the start of the current calendar day is a field of the
  world (`new Date().setHours(0,0,0,0)` in the source);
* the SHA-256 digest of `lib/crypto` is modelled as an abstract injective
  tagging of its input string: every use in the embedded code compares
  digests for equality only;
* each Supabase table read or write that the source checks for failure
  carries a fault flag in the world (`Faults`), so that the source's
  error-handling branches are reachable in the model;
* database writes the source performs without inspecting the result
  (security-log inserts, device last-used updates) are modelled as always
  succeeding, exactly as the source ignores their outcome.
-/

namespace NfcArmor

/-- Models hashPin from lib/crypto: the SHA-256 hex digest of the PIN.
The digest is modelled as an abstract injective tagging of the input,
since the embedded code only ever compares digests for equality. -/
def hashPin (pin : String) : String :=
  "sha256(" ++ pin ++ ")"

/-- Models generateTransactionSignature from lib/crypto: the digest of
the ordered tuple userId:amount:merchantId:timestamp. -/
def generateTransactionSignature (userId : String) (amount : Rat)
    (merchantId : String) (timestamp : Int) : String :=
  "sha256(" ++ userId ++ ":" ++ toString amount ++ ":" ++ merchantId ++ ":"
    ++ toString timestamp ++ ")"

/-- Row of the users table (migration: id, email, pin_hash NOT NULL,
daily_limit nullable numeric, status, failed_auth_attempts, last_failed_auth). -/
structure User where
  id : String
  email : String
  pinHash : String
  dailyLimit : Option Rat
  status : String
  failedAuthAttempts : Nat
  lastFailedAuth : Option Int
deriving DecidableEq

/-- Row of the nfc_devices table. -/
structure Device where
  id : String
  userId : String
  deviceUid : String
  deviceName : String
  isActive : Bool
  lastUsed : Option Int
deriving DecidableEq

/-- Row of the transactions table / the Transaction interface of the
transaction service. -/
structure Transaction where
  id : String
  userId : String
  deviceId : String
  amount : Rat
  currency : String
  merchantId : String
  merchantName : String
  status : String
  riskScore : Nat
  declineReason : Option String
  signature : String
  createdAt : Int
deriving DecidableEq

/-- Row of the security_logs table, as inserted by logSecurityEvent. -/
structure SecurityEvent where
  userId : String
  eventType : String
  severity : String
  description : String
deriving DecidableEq

/-- The TransactionRequest interface of the transaction service. -/
structure TransactionRequest where
  userId : String
  deviceId : String
  amount : Rat
  merchantId : String
  merchantName : String
  currency : Option String
deriving DecidableEq

/-- Injectable store-read/write failures, one flag per call site whose
error the source inspects: the users read in verifyPin, the users read in
checkAccountStatus, the users read in checkDailyLimit, the transactions
read in getDailyTransactionTotal, the transactions read in
getRecentTransactions, and the transactions insert in processTransaction. -/
structure Faults where
  pinRead : Bool
  statusRead : Bool
  limitRead : Bool
  dailyTotalRead : Bool
  recentRead : Bool
  txInsert : Bool
deriving DecidableEq

/-- The external Supabase store: users, nfc_devices, transactions and
security_logs tables, in insertion order. -/
structure Store where
  users : List User
  devices : List Device
  transactions : List Transaction
  securityLogs : List SecurityEvent
deriving DecidableEq

/-- A world: the store, the injectable faults, the clock (`Date.now()` in
milliseconds), the start of the current calendar day, and a counter for
generated row ids. -/
structure World where
  store : Store
  faults : Faults
  now : Int
  dayStart : Int
  nextId : Nat
deriving DecidableEq

/-- Lookup of a users row by id (`.eq('id', userId).maybeSingle()`). -/
def findUser (s : Store) (userId : String) : Option User :=
  s.users.find? (fun u => u.id == userId)

/-- Update of the users row with the given id (`.update({...}).eq('id', userId)`). -/
def updateUser (s : Store) (userId : String) (f : User → User) : Store :=
  { s with users := s.users.map (fun u => if u.id == userId then f u else u) }

/-- Models logSecurityEvent: appends a security_logs row; the source never
inspects the insert's outcome, so the append always succeeds. -/
def logSecurityEvent (w : World) (userId eventType severity description : String) :
    World :=
  { w with store := { w.store with
      securityLogs := w.store.securityLogs ++ [⟨userId, eventType, severity, description⟩] } }

/-- Models incrementFailedAuthAttempts (authService.ts): reads the current
counter (0 when the row is missing), writes counter+1, the failure
timestamp, and status locked when the new counter reaches 5 and active
otherwise; at 5 or more it also logs a critical account_locked event. -/
def incrementFailedAuthAttempts (w : World) (userId : String) : World :=
  let attempts := (match findUser w.store userId with
    | some u => u.failedAuthAttempts
    | none => 0) + 1
  let w1 := { w with store := updateUser w.store userId (fun u =>
    { u with failedAuthAttempts := attempts,
             lastFailedAuth := some w.now,
             status := if attempts ≥ 5 then "locked" else "active" }) }
  if attempts ≥ 5 then
    logSecurityEvent w1 userId "account_locked" "critical"
      ("Account locked after " ++ toString attempts ++ " failed attempts")
  else w1

/-- Models resetFailedAuthAttempts (authService.ts). -/
def resetFailedAuthAttempts (w : World) (userId : String) : World :=
  { w with store := updateUser w.store userId (fun u =>
    { u with failedAuthAttempts := 0, lastFailedAuth := none }) }

/-- Models verifyPin (authService.ts): recomputes the digest and compares
it to the stored pin_hash. A read error or missing row logs a medium
pin_verification_failed event and returns false; a mismatch increments the
failed-auth counter, logs a high invalid_pin event and returns false. -/
def verifyPin (w : World) (userId pin : String) : Bool × World :=
  let pinHash := hashPin pin
  match (if w.faults.pinRead then none else findUser w.store userId) with
  | none =>
    (false, logSecurityEvent w userId "pin_verification_failed" "medium"
      "PIN verification failed")
  | some u =>
    if u.pinHash == pinHash then (true, w)
    else
      let w1 := incrementFailedAuthAttempts w userId
      (false, logSecurityEvent w1 userId "invalid_pin" "high" "Invalid PIN entered")

/-- Models registerNFCDevice (nfcService.ts): inserts an nfc_devices row
with is_active true. The migration declares device_uid UNIQUE, so the
insert errors when the identifier is already registered (the source
rethrows that error); on success a low nfc_device_registered event is
logged. -/
def registerNFCDevice (w : World) (userId deviceUid deviceName : String) :
    Except String (Device × World) :=
  if w.store.devices.any (fun d => d.deviceUid == deviceUid) then
    .error "duplicate key value violates unique constraint on device_uid"
  else
    let d : Device := ⟨"dev-" ++ toString w.nextId, userId, deviceUid, deviceName, true, none⟩
    let w1 := { w with
      store := { w.store with devices := w.store.devices ++ [d] },
      nextId := w.nextId + 1 }
    .ok (d, logSecurityEvent w1 userId "nfc_device_registered" "low"
      ("NFC device registered: " ++ deviceName))

/-- Models getUserDevices (nfcService.ts): the user's nfc_devices rows. -/
def getUserDevices (w : World) (userId : String) : List Device :=
  w.store.devices.filter (fun d => d.userId == userId)

/-- Models updateDeviceLastUsed: stamps last_used on the device row. -/
def updateDeviceLastUsed (w : World) (deviceId : String) : World :=
  let devices := w.store.devices.map
    (fun d => if d.id == deviceId then { d with lastUsed := some w.now } else d)
  { w with store := { w.store with devices := devices } }

/-- Models getDailyTransactionTotal (transaction service): sums the user's
approved transactions created since the start of the current day; a read
error is swallowed and 0 returned (`if (error) return 0`). -/
def getDailyTransactionTotal (w : World) (userId : String) : Rat :=
  if w.faults.dailyTotalRead then 0
  else (w.store.transactions.filter (fun t =>
      t.userId == userId && t.status == "approved" && decide (w.dayStart ≤ t.createdAt))).foldl
      (fun sum t => sum + t.amount) 0

/-- Models getRecentTransactions (transaction service): the user's
transactions created within the trailing `minutes` minutes; a read error
is swallowed and the empty list returned (`if (error) return []`). The
source orders the rows newest-first; the embedding keeps store order, and
the one consumer only takes the list's length and an existential over it. -/
def getRecentTransactions (w : World) (userId : String) (minutes : Int) :
    List Transaction :=
  if w.faults.recentRead then []
  else
    let cutoff := w.now - minutes * 60 * 1000
    w.store.transactions.filter (fun t => t.userId == userId && decide (cutoff ≤ t.createdAt))

/-- Models Math.abs on the embedded amounts. -/
def mathAbs (x : Rat) : Rat := if x < 0 then -x else x

/-- Models calculateRiskScore (transaction service): +30 for amount > 500,
+40 for at least 3 transactions in the trailing 5 minutes, +50 when the
approved daily total plus the amount exceeds 1000, +70 for a duplicate
(same merchant, amount within 0.01, created within the trailing 60
seconds), capped at 100. -/
def calculateRiskScore (w : World) (req : TransactionRequest) : Nat :=
  let recentTransactions := getRecentTransactions w req.userId 5
  let score1 := if req.amount > 500 then 30 else 0
  let score2 := score1 + (if recentTransactions.length ≥ 3 then 40 else 0)
  let dailyTotal := getDailyTransactionTotal w req.userId
  let score3 := score2 + (if dailyTotal + req.amount > 1000 then 50 else 0)
  let isDuplicate := recentTransactions.any (fun t =>
    t.merchantId == req.merchantId &&
    decide (mathAbs (t.amount - req.amount) < 1/100) &&
    decide (w.now - t.createdAt < 60000))
  let score4 := score3 + (if isDuplicate then 70 else 0)
  min score4 100

/-- Risk score written from the specification's words (section 4.2): the
final score is min(sum of triggered points, 100), with +30 when the amount
exceeds 500, +40 when the trailing 5 minutes of the user's history contain
at least 3 transactions, +50 when the approved-today total plus the amount
exceeds 1000, and +70 when some transaction in the trailing 60 seconds is
to the same merchant with an amount within 0.01. To be compared with
calculateRiskScore, the definition embedded from the source. -/
def riskScoreSpec (w : World) (req : TransactionRequest) : Nat :=
  let trailing5min := w.store.transactions.filter (fun t =>
    t.userId == req.userId && decide (w.now - 300000 ≤ t.createdAt))
  let approvedToday := (w.store.transactions.filter (fun t =>
    t.userId == req.userId && t.status == "approved" && decide (w.dayStart ≤ t.createdAt))).foldl
    (fun sum t => sum + t.amount) 0
  let largeAmount := if req.amount > 500 then 30 else 0
  let burstVelocity := if trailing5min.length ≥ 3 then 40 else 0
  let dailyAccumulation := if approvedToday + req.amount > 1000 then 50 else 0
  let duplicate := if w.store.transactions.any (fun t =>
      t.userId == req.userId && t.merchantId == req.merchantId &&
      decide (mathAbs (t.amount - req.amount) < 1/100) &&
      decide (w.now - t.createdAt < 60000)) then 70 else 0
  min (largeAmount + burstVelocity + dailyAccumulation + duplicate) 100

/-- Models determineTransactionStatus (transaction service). -/
def determineTransactionStatus (riskScore : Nat) : String :=
  if riskScore ≥ 80 then "declined"
  else if riskScore ≥ 50 then "pending"
  else "approved"

/-- Models checkAccountStatus (transaction service): a read error is
rethrown; a missing row or a status other than active throws
"Account is not active". -/
def checkAccountStatus (w : World) (userId : String) : Except String Unit :=
  if w.faults.statusRead then .error "users read failed"
  else match findUser w.store userId with
    | none => .error "Account is not active"
    | some u => if u.status == "active" then .ok () else .error "Account is not active"

/-- Models checkDailyLimit (transaction service): the daily_limit read
ignores errors (`const { data } = ...`), and `data?.daily_limit || 1000`
makes a missing row, a null limit and a zero limit all fall back to 1000. -/
def checkDailyLimit (w : World) (userId : String) (amount : Rat) :
    Except String Unit :=
  let dailyLimit : Rat :=
    match (if w.faults.limitRead then none else findUser w.store userId) with
    | some u => match u.dailyLimit with
      | some l => if l == 0 then 1000 else l
      | none => 1000
    | none => 1000
  let dailyTotal := getDailyTransactionTotal w userId
  if dailyTotal + amount > dailyLimit then .error "Daily transaction limit exceeded"
  else .ok ()

/-- The pipeline steps named by the specification. The embedding returns,
next to its result, the steps in the order the source executes them (a
step that runs and fails is listed; everything after the failure is not). -/
inductive Step where
  | pinVerification
  | deviceResolution
  | riskScoring
  | accountCheck
  | dailyLimitCheck
  | statusDecision
  | persistence
deriving DecidableEq

/-- Models processTransaction (transaction service), in the source's
statement order: signature, then calculateRiskScore, then
checkAccountStatus, then checkDailyLimit, then determineTransactionStatus,
then the transactions insert (errors rethrown), then the
transaction_processed audit event (high above risk 70, low otherwise),
then — for approved transactions only — the device last-used update. -/
def processTransaction (w : World) (req : TransactionRequest) :
    List Step × Except String Transaction × World :=
  let signature := generateTransactionSignature req.userId req.amount req.merchantId w.now
  let riskScore := calculateRiskScore w req
  match checkAccountStatus w req.userId with
  | .error e => ([.riskScoring, .accountCheck], .error e, w)
  | .ok _ =>
    match checkDailyLimit w req.userId req.amount with
    | .error e => ([.riskScoring, .accountCheck, .dailyLimitCheck], .error e, w)
    | .ok _ =>
      let status := determineTransactionStatus riskScore
      if w.faults.txInsert then
        ([.riskScoring, .accountCheck, .dailyLimitCheck, .statusDecision, .persistence],
         .error "transactions insert failed", w)
      else
        let txn : Transaction :=
          ⟨"txn-" ++ toString w.nextId, req.userId, req.deviceId, req.amount,
           (match req.currency with | some c => c | none => "USD"),
           req.merchantId, req.merchantName, status, riskScore,
           (if status == "declined" then some "High risk score" else none),
           signature, w.now⟩
        let w1 := { w with
          store := { w.store with transactions := w.store.transactions ++ [txn] },
          nextId := w.nextId + 1 }
        let w2 := logSecurityEvent w1 req.userId "transaction_processed"
          (if riskScore > 70 then "high" else "low")
          ("Transaction " ++ status ++ " at " ++ req.merchantName)
        let w3 := if status == "approved" then updateDeviceLastUsed w2 req.deviceId else w2
        ([.riskScoring, .accountCheck, .dailyLimitCheck, .statusDecision, .persistence],
         .ok txn, w3)

/-- The payment form of Dashboard.tsx: the entered amount and merchant,
the entered PIN, and the device identifier delivered by the NFC read. -/
structure PaymentForm where
  amount : Rat
  merchantName : String
  pin : String
  deviceUid : String
deriving DecidableEq

/-- Models handlePayment (Dashboard.tsx): verifyPin (throwing Invalid PIN
on failure), then device resolution — the tag's identifier is looked up
among the user's own devices and auto-registered when absent (the
registration error, e.g. an identifier owned by another user, is
rethrown) — then processTransaction with a timestamp-derived merchant id. -/
def handlePayment (w : World) (userId : String) (form : PaymentForm) :
    List Step × Except String Transaction × World :=
  let out := verifyPin w userId form.pin
  if out.1 then
    let w1 := out.2
    let userDevices := getUserDevices w1 userId
    match userDevices.find? (fun d => d.deviceUid == form.deviceUid) with
    | some device =>
      let res := processTransaction w1
        ⟨userId, device.id, form.amount, "MERCH_" ++ toString w1.now, form.merchantName, some "USD"⟩
      (Step.pinVerification :: Step.deviceResolution :: res.1, res.2.1, res.2.2)
    | none =>
      match registerNFCDevice w1 userId form.deviceUid
        ("Device " ++ toString (userDevices.length + 1)) with
      | .error e => ([Step.pinVerification, Step.deviceResolution], .error e, w1)
      | .ok dw =>
        let res := processTransaction dw.2
          ⟨userId, dw.1.id, form.amount, "MERCH_" ++ toString dw.2.now, form.merchantName, some "USD"⟩
        (Step.pinVerification :: Step.deviceResolution :: res.1, res.2.1, res.2.2)
  else ([Step.pinVerification], .error "Invalid PIN", out.2)


/-- Models the sign-in/verification retry loop: the world after verifying
each PIN of the list in turn (each call's state feeding the next). -/
def failChain (w : World) (uid : String) (pins : List String) : World :=
  pins.foldl (fun wa p => (verifyPin wa uid p).2) w

/-- Fault configuration with every store call healthy. -/
def noFaults : Faults := ⟨false, false, false, false, false, false⟩

/-- Fault configuration with every store call failing. -/
def allFaults : Faults := ⟨true, true, true, true, true, true⟩

/-- Concrete active user with PIN 1234, daily limit 1000, counter 0. -/
def uOK : User := ⟨"u1", "u1@example.com", hashPin "1234", some 1000, "active", 0, none⟩

/-- Concrete suspended user, otherwise as uOK. -/
def uSuspended : User :=
  ⟨"u1", "u1@example.com", hashPin "1234", some 1000, "suspended", 0, none⟩

/-- Concrete active user with three failed authentication attempts on record. -/
def uCtr3 : User := ⟨"u1", "u1@example.com", hashPin "1234", some 1000, "active", 3, none⟩

/-- Concrete active device with identifier tag1 owned by u1. -/
def dActive : Device := ⟨"d1", "u1", "tag1", "Device 1", true, none⟩

/-- Concrete deactivated device with identifier tag1 owned by u1. -/
def dInactive : Device := ⟨"d1", "u1", "tag1", "Device 1", false, none⟩

/-- Healthy world: active user, active device, empty ledgers. -/
def wOK : World := ⟨⟨[uOK], [dActive], [], []⟩, noFaults, 1000000, 0, 0⟩

/-- World whose only user is suspended. -/
def wC1 : World := ⟨⟨[uSuspended], [dActive], [], []⟩, noFaults, 1000000, 0, 0⟩

/-- World whose user already has three failed attempts. -/
def wCtr3 : World := ⟨⟨[uCtr3], [dActive], [], []⟩, noFaults, 1000000, 0, 0⟩

/-- World whose only device is deactivated but owned by the user. -/
def wC8x : World := ⟨⟨[uOK], [dInactive], [], []⟩, noFaults, 1000000, 0, 0⟩

/-- Payment form tapping the registered device tag1 with the correct PIN. -/
def formC1 : PaymentForm := ⟨10, "Shop", "1234", "tag1"⟩

/-- Payment form tapping an unregistered device tag9 with the correct PIN. -/
def formFresh : PaymentForm := ⟨10, "Shop", "1234", "tag9"⟩

/-- World with a rich 5-minute history: a near-duplicate of M1 at 9.995,
plus two more recent transactions, approved today. -/
def wC2 : World :=
  ⟨⟨[uOK], [],
    [⟨"t1", "u1", "d1", 9.995, "USD", "M1", "Shop", "approved", 0, none, "s", 999000⟩,
     ⟨"t2", "u1", "d1", 200, "USD", "M2", "Shop", "approved", 0, none, "s", 980000⟩,
     ⟨"t3", "u1", "d1", 300, "USD", "M3", "Shop", "approved", 0, none, "s", 900000⟩], []⟩,
   noFaults, 1000000, 0, 0⟩

/-- Candidate transaction repeating merchant M1 for 10 within a second. -/
def reqC2 : TransactionRequest := ⟨"u1", "d1", 10, "M1", "Shop", some "USD"⟩

/-- Candidate low-risk transaction for the healthy world. -/
def reqC3 : TransactionRequest := ⟨"u1", "d1", 10, "M1", "Shop", some "USD"⟩

/-- The transaction the pipeline persists for reqC3 in wOK. -/
def txnC3 : Transaction :=
  ⟨"txn-0", "u1", "d1", 10, "USD", "M1", "Shop", "approved", 0, none,
   generateTransactionSignature "u1" 10 "M1" 1000000, 1000000⟩

/-- An approved 5000 transaction from early today, outside the 5-minute window. -/
def tOld : Transaction :=
  ⟨"t0", "u1", "d1", 5000, "USD", "M9", "Mega", "approved", 0, none, "s", 1000⟩

/-- World where the daily-total read fails while the ledger already holds
an approved 5000 today. -/
def wC9x : World :=
  ⟨⟨[uOK], [dActive], [tOld], []⟩, ⟨false, false, false, true, false, false⟩, 1000000, 0, 1⟩

/-- The same store as wC9x with every store call healthy. -/
def wC9ok : World := ⟨⟨[uOK], [dActive], [tOld], []⟩, noFaults, 1000000, 0, 1⟩

/-- Candidate 400 transaction against the wC9x ledger. -/
def reqC9 : TransactionRequest := ⟨"u1", "d1", 400, "M1", "Shop", some "USD"⟩

/-- World in which every store call fails. -/
def wAllFaults : World := ⟨⟨[uOK], [dActive], [], []⟩, allFaults, 1000000, 0, 0⟩

lemma getRecentTransactions_five (w : World) (userId : String)
    (hr : w.faults.recentRead = false) :
    getRecentTransactions w userId 5 =
      w.store.transactions.filter (fun t =>
        t.userId == userId && decide (w.now - 300000 ≤ t.createdAt)) := by
  unfold getRecentTransactions
  rw [hr]
  norm_num

lemma duplicate_any_eq (w : World) (req : TransactionRequest)
    (hr : w.faults.recentRead = false) :
    ((getRecentTransactions w req.userId 5).any (fun t =>
      t.merchantId == req.merchantId &&
      decide (mathAbs (t.amount - req.amount) < 1/100) &&
      decide (w.now - t.createdAt < 60000)))
    = (w.store.transactions.any (fun t =>
      t.userId == req.userId && t.merchantId == req.merchantId &&
      decide (mathAbs (t.amount - req.amount) < 1/100) &&
      decide (w.now - t.createdAt < 60000))) := by
  rw [getRecentTransactions_five w req.userId hr]
  rw [Bool.eq_iff_iff]
  simp only [List.any_filter, List.any_eq_true, Bool.and_eq_true, decide_eq_true_eq]
  constructor
  · intro h
    obtain ⟨t, ht, h1, h2⟩ := h
    exact ⟨t, ht, ⟨⟨h1.1, h2.1.1⟩, h2.1.2⟩, h2.2⟩
  · intro h
    obtain ⟨t, ht, h1, h2⟩ := h
    exact ⟨t, ht, ⟨h1.1.1, by omega⟩, ⟨h1.1.2, h1.2⟩, h2⟩

lemma getDailyTransactionTotal_noFault (w : World) (userId : String)
    (hd : w.faults.dailyTotalRead = false) :
    getDailyTransactionTotal w userId =
      (w.store.transactions.filter (fun t =>
        t.userId == userId && t.status == "approved" && decide (w.dayStart ≤ t.createdAt))).foldl
        (fun sum t => sum + t.amount) 0 := by
  unfold getDailyTransactionTotal
  rw [hd]
  simp

/-- C2: for every world without read faults and every candidate
transaction, the risk score equals min(sum of the four triggered rule
points, 100) — +30 for amount > 500, +40 for at least 3 transactions in
the trailing 5 minutes, +50 when approved-today total plus amount exceeds
1000, +70 for a same-merchant amount-within-0.01 transaction in the
trailing 60 seconds — and the result never exceeds 100. -/
theorem riskScore_eq_min_rule_sum (w : World) (req : TransactionRequest)
    (hr : w.faults.recentRead = false) (hd : w.faults.dailyTotalRead = false) :
    calculateRiskScore w req = riskScoreSpec w req ∧ calculateRiskScore w req ≤ 100 := by
  have h5 := getRecentTransactions_five w req.userId hr
  have hdd := getDailyTransactionTotal_noFault w req.userId hd
  have hdup := duplicate_any_eq w req hr
  rw [h5] at hdup
  constructor
  · simp only [calculateRiskScore, riskScoreSpec, h5, hdd, hdup]
  · unfold calculateRiskScore
    exact Nat.min_le_right _ _

lemma processTransaction_trace (w : World) (req : TransactionRequest) :
    ∃ m, (processTransaction w req).1 =
      List.take m [Step.riskScoring, Step.accountCheck, Step.dailyLimitCheck,
        Step.statusDecision, Step.persistence] := by
  unfold processTransaction
  cases hA : checkAccountStatus w req.userId with
  | error e => exact ⟨2, rfl⟩
  | ok u =>
    cases hL : checkDailyLimit w req.userId req.amount with
    | error e => exact ⟨3, rfl⟩
    | ok v =>
      by_cases hI : w.faults.txInsert = true
      · exact ⟨5, by simp [hI]⟩
      · exact ⟨5, by simp [hI]⟩

/-- C1 (amended): the pipeline executes its steps in the strict order PIN
verification, device resolution, risk scoring, account-status check,
daily-limit check, status decision, persistence — risk scoring runs before
the account-status and daily-limit checks — and a failure of any step
prevents execution of all later steps (every trace is a prefix of the full
order). -/
theorem pipeline_actual_order (w : World) (userId : String) (form : PaymentForm) :
    ∃ n, (handlePayment w userId form).1 =
      List.take n [Step.pinVerification, Step.deviceResolution, Step.riskScoring,
        Step.accountCheck, Step.dailyLimitCheck, Step.statusDecision, Step.persistence] := by
  unfold handlePayment
  cases hv : (verifyPin w userId form.pin).1
  · exact ⟨1, by simp [hv]⟩
  · simp only [hv, if_true]
    cases hf : (getUserDevices (verifyPin w userId form.pin).2 userId).find?
        (fun d => d.deviceUid == form.deviceUid) with
    | some device =>
      obtain ⟨m, hm⟩ := processTransaction_trace (verifyPin w userId form.pin).2
        ⟨userId, device.id, form.amount,
         "MERCH_" ++ toString (verifyPin w userId form.pin).2.now, form.merchantName, some "USD"⟩
      exact ⟨m + 2, by simp [hm, List.take_succ_cons]⟩
    | none =>
      cases hr : registerNFCDevice (verifyPin w userId form.pin).2 userId form.deviceUid
          ("Device " ++ toString ((getUserDevices (verifyPin w userId form.pin).2 userId).length + 1)) with
      | error e => exact ⟨2, by simp⟩
      | ok dw =>
        obtain ⟨m, hm⟩ := processTransaction_trace dw.2
          ⟨userId, dw.1.id, form.amount, "MERCH_" ++ toString dw.2.now, form.merchantName, some "USD"⟩
        exact ⟨m + 2, by simp [hm, List.take_succ_cons]⟩

/-- C1 counterexample: on a suspended account the account-status check
fails, yet the trace shows risk scoring already executed before it; the
claimed order (PIN, account status, device, daily limit, risk scoring,
status, persistence) is refuted. -/
theorem pipeline_claimed_order_refuted :
    (handlePayment wC1 "u1" formC1).1 =
      [Step.pinVerification, Step.deviceResolution, Step.riskScoring, Step.accountCheck] ∧
    (handlePayment wC1 "u1" formC1).2.1 = Except.error "Account is not active" ∧
    ¬ (∀ (w : World) (userId : String) (form : PaymentForm),
        ∃ n, (handlePayment w userId form).1 =
          List.take n [Step.pinVerification, Step.accountCheck, Step.deviceResolution,
            Step.dailyLimitCheck, Step.riskScoring, Step.statusDecision, Step.persistence]) := by
  refine ⟨rfl, rfl, ?_⟩
  intro h
  obtain ⟨n, hn⟩ := h wC1 "u1" formC1
  have htr : (handlePayment wC1 "u1" formC1).1 =
      [Step.pinVerification, Step.deviceResolution, Step.riskScoring, Step.accountCheck] := rfl
  rw [htr] at hn
  have hlen := congrArg List.length hn
  simp [List.length_take] at hlen
  have hn4 : n = 4 := by omega
  subst hn4
  exact absurd hn (by decide)

lemma processTransaction_ok_fields (w : World) (req : TransactionRequest)
    (txn : Transaction) (h : (processTransaction w req).2.1 = Except.ok txn) :
    txn.riskScore = calculateRiskScore w req ∧
    txn.status = determineTransactionStatus (calculateRiskScore w req) ∧
    txn.declineReason =
      (if determineTransactionStatus (calculateRiskScore w req) == "declined"
       then some "High risk score" else none) := by
  unfold processTransaction at h
  cases hA : checkAccountStatus w req.userId with
  | error e => rw [hA] at h; simp at h
  | ok u =>
    rw [hA] at h
    cases hL : checkDailyLimit w req.userId req.amount with
    | error e => rw [hL] at h; simp at h
    | ok v =>
      rw [hL] at h
      by_cases hI : w.faults.txInsert = true
      · simp [hI] at h
      · simp only [hI, if_false, Bool.false_eq_true] at h
        simp at h
        subst h
        refine ⟨rfl, rfl, ?_⟩
        simp

lemma determineTransactionStatus_ranges (r : Nat) :
    (80 ≤ r → determineTransactionStatus r = "declined") ∧
    (50 ≤ r → r < 80 → determineTransactionStatus r = "pending") ∧
    (r < 50 → determineTransactionStatus r = "approved") ∧
    (determineTransactionStatus r = "declined" ↔ 80 ≤ r) := by
  unfold determineTransactionStatus
  split_ifs with h1 h2 <;> refine ⟨?_, ?_, ?_, ?_⟩ <;> simp_all <;> omega

/-- C3: every transaction the pipeline persists has its status determined
solely by the risk score: risk of 80 or more is declined with decline
reason "High risk score", risk in [50, 80) is pending, risk below 50 is
approved, and a decline reason is present exactly when the status is
declined. -/
theorem status_decided_by_risk (w : World) (req : TransactionRequest)
    (txn : Transaction) (h : (processTransaction w req).2.1 = Except.ok txn) :
    txn.status = determineTransactionStatus txn.riskScore ∧
    (80 ≤ txn.riskScore → txn.status = "declined" ∧ txn.declineReason = some "High risk score") ∧
    (50 ≤ txn.riskScore → txn.riskScore < 80 → txn.status = "pending") ∧
    (txn.riskScore < 50 → txn.status = "approved") ∧
    (txn.declineReason ≠ none ↔ txn.status = "declined") := by
  obtain ⟨hr, hs, hd⟩ := processTransaction_ok_fields w req txn h
  obtain ⟨g1, g2, g3, g4⟩ := determineTransactionStatus_ranges (calculateRiskScore w req)
  rw [hr, hs, hd]
  refine ⟨rfl, ?_, ?_, ?_, ?_⟩
  · intro h80
    exact ⟨g1 h80, by simp [g1 h80]⟩
  · intro h50 h80
    exact g2 h50 h80
  · intro h50
    exact g3 h50
  · by_cases hb : determineTransactionStatus (calculateRiskScore w req) = "declined"
    · simp [hb]
    · simp [hb]

lemma incrementFailedAuthAttempts_frame (w : World) (userId : String) :
    (incrementFailedAuthAttempts w userId).store.transactions = w.store.transactions ∧
    (incrementFailedAuthAttempts w userId).store.devices = w.store.devices ∧
    (incrementFailedAuthAttempts w userId).faults = w.faults ∧
    (incrementFailedAuthAttempts w userId).now = w.now ∧
    (incrementFailedAuthAttempts w userId).nextId = w.nextId := by
  simp only [incrementFailedAuthAttempts]
  split <;> exact ⟨rfl, rfl, rfl, rfl, rfl⟩

lemma verifyPin_eq_of_missing (w : World) (userId pin : String)
    (hm : (if w.faults.pinRead = true then none else findUser w.store userId) = none) :
    verifyPin w userId pin =
      (false, logSecurityEvent w userId "pin_verification_failed" "medium"
        "PIN verification failed") := by
  unfold verifyPin
  rw [hm]

lemma verifyPin_eq_of_found (w : World) (userId pin : String) (u : User)
    (hm : (if w.faults.pinRead = true then none else findUser w.store userId) = some u) :
    verifyPin w userId pin =
      (if (u.pinHash == hashPin pin) = true then ((true : Bool), w)
       else (false, logSecurityEvent (incrementFailedAuthAttempts w userId) userId
         "invalid_pin" "high" "Invalid PIN entered")) := by
  unfold verifyPin
  rw [hm]

lemma verifyPin_frame (w : World) (userId pin : String) :
    (verifyPin w userId pin).2.store.transactions = w.store.transactions ∧
    (verifyPin w userId pin).2.store.devices = w.store.devices ∧
    (verifyPin w userId pin).2.faults = w.faults ∧
    (verifyPin w userId pin).2.now = w.now ∧
    (verifyPin w userId pin).2.nextId = w.nextId := by
  cases hm : (if w.faults.pinRead = true then none else findUser w.store userId) with
  | none => rw [verifyPin_eq_of_missing w userId pin hm]; exact ⟨rfl, rfl, rfl, rfl, rfl⟩
  | some u =>
    rw [verifyPin_eq_of_found w userId pin u hm]
    by_cases hb : (u.pinHash == hashPin pin) = true
    · rw [if_pos hb]
      exact ⟨rfl, rfl, rfl, rfl, rfl⟩
    · rw [if_neg hb]
      obtain ⟨h1, h2, h3, h4, h5⟩ := incrementFailedAuthAttempts_frame w userId
      exact ⟨h1, h2, h3, h4, h5⟩

lemma registerNFCDevice_ok_frame (w : World) (userId deviceUid deviceName : String)
    (d : Device) (w' : World)
    (h : registerNFCDevice w userId deviceUid deviceName = Except.ok (d, w')) :
    w'.store.users = w.store.users ∧
    w'.store.transactions = w.store.transactions ∧
    w'.store.devices = w.store.devices ++ [d] ∧
    w'.faults = w.faults ∧ w'.now = w.now := by
  unfold registerNFCDevice at h
  by_cases hd : (w.store.devices.any (fun d => d.deviceUid == deviceUid)) = true
  · rw [if_pos hd] at h
    simp at h
  · rw [if_neg hd] at h
    simp only [Except.ok.injEq, Prod.mk.injEq] at h
    obtain ⟨hd1, hw⟩ := h
    subst hw
    subst hd1
    exact ⟨rfl, rfl, rfl, rfl, rfl⟩

lemma processTransaction_eq_of_accountError (w : World) (req : TransactionRequest)
    (e : String) (hA : checkAccountStatus w req.userId = Except.error e) :
    processTransaction w req =
      ([Step.riskScoring, Step.accountCheck], Except.error e, w) := by
  unfold processTransaction
  rw [hA]

lemma processTransaction_eq_of_limitError (w : World) (req : TransactionRequest)
    (e : String) (hA : checkAccountStatus w req.userId = Except.ok ())
    (hL : checkDailyLimit w req.userId req.amount = Except.error e) :
    processTransaction w req =
      ([Step.riskScoring, Step.accountCheck, Step.dailyLimitCheck], Except.error e, w) := by
  unfold processTransaction
  rw [hA, hL]

lemma processTransaction_eq_of_checks (w : World) (req : TransactionRequest)
    (hA : checkAccountStatus w req.userId = Except.ok ())
    (hL : checkDailyLimit w req.userId req.amount = Except.ok ()) :
    processTransaction w req =
      (if w.faults.txInsert = true then
        ([Step.riskScoring, Step.accountCheck, Step.dailyLimitCheck,
          Step.statusDecision, Step.persistence],
         Except.error "transactions insert failed", w)
      else
        let txn : Transaction :=
          ⟨"txn-" ++ toString w.nextId, req.userId, req.deviceId, req.amount,
           (match req.currency with | some c => c | none => "USD"),
           req.merchantId, req.merchantName,
           determineTransactionStatus (calculateRiskScore w req), calculateRiskScore w req,
           (if (determineTransactionStatus (calculateRiskScore w req) == "declined") = true
            then some "High risk score" else none),
           generateTransactionSignature req.userId req.amount req.merchantId w.now, w.now⟩
        let w1 : World := { w with
          store := { w.store with transactions := w.store.transactions ++ [txn] },
          nextId := w.nextId + 1 }
        let w2 := logSecurityEvent w1 req.userId "transaction_processed"
          (if calculateRiskScore w req > 70 then "high" else "low")
          ("Transaction " ++ determineTransactionStatus (calculateRiskScore w req)
            ++ " at " ++ req.merchantName)
        let w3 := if (determineTransactionStatus (calculateRiskScore w req) == "approved") = true
          then updateDeviceLastUsed w2 req.deviceId else w2
        ([Step.riskScoring, Step.accountCheck, Step.dailyLimitCheck,
          Step.statusDecision, Step.persistence],
         Except.ok txn, w3)) := by
  unfold processTransaction
  rw [hA, hL]

lemma processTransaction_error_world (w : World) (req : TransactionRequest)
    (e : String) (h : (processTransaction w req).2.1 = Except.error e) :
    (processTransaction w req).2.2 = w := by
  cases hA : checkAccountStatus w req.userId with
  | error e1 => rw [processTransaction_eq_of_accountError w req e1 hA]
  | ok u =>
    cases u
    cases hL : checkDailyLimit w req.userId req.amount with
    | error e2 => rw [processTransaction_eq_of_limitError w req e2 hA hL]
    | ok v =>
      cases v
      rw [processTransaction_eq_of_checks w req hA hL] at h ⊢
      by_cases hI : w.faults.txInsert = true
      · rw [if_pos hI]
      · rw [if_neg hI] at h
        simp at h

lemma processTransaction_ok_world (w : World) (req : TransactionRequest)
    (txn : Transaction) (h : (processTransaction w req).2.1 = Except.ok txn) :
    (processTransaction w req).2.2.store.transactions = w.store.transactions ++ [txn] := by
  cases hA : checkAccountStatus w req.userId with
  | error e1 => rw [processTransaction_eq_of_accountError w req e1 hA] at h; simp at h
  | ok u =>
    cases u
    cases hL : checkDailyLimit w req.userId req.amount with
    | error e2 => rw [processTransaction_eq_of_limitError w req e2 hA hL] at h; simp at h
    | ok v =>
      cases v
      rw [processTransaction_eq_of_checks w req hA hL] at h ⊢
      by_cases hI : w.faults.txInsert = true
      · rw [if_pos hI] at h; simp at h
      · rw [if_neg hI] at h ⊢
        simp only [Except.ok.injEq] at h
        subst h
        simp [updateDeviceLastUsed, logSecurityEvent, apply_ite World.store,
          apply_ite Store.transactions, ite_self]

lemma handlePayment_eq_of_pinFail (w : World) (userId : String) (form : PaymentForm)
    (hv : (verifyPin w userId form.pin).1 = false) :
    handlePayment w userId form =
      ([Step.pinVerification], Except.error "Invalid PIN", (verifyPin w userId form.pin).2) := by
  simp only [handlePayment, hv, Bool.false_eq_true, if_false]

lemma handlePayment_eq_of_found (w : World) (userId : String) (form : PaymentForm)
    (device : Device) (hv : (verifyPin w userId form.pin).1 = true)
    (hf : (getUserDevices (verifyPin w userId form.pin).2 userId).find?
      (fun d => d.deviceUid == form.deviceUid) = some device) :
    handlePayment w userId form =
      (Step.pinVerification :: Step.deviceResolution ::
        (processTransaction (verifyPin w userId form.pin).2
          ⟨userId, device.id, form.amount,
           "MERCH_" ++ toString (verifyPin w userId form.pin).2.now,
           form.merchantName, some "USD"⟩).1,
       (processTransaction (verifyPin w userId form.pin).2
          ⟨userId, device.id, form.amount,
           "MERCH_" ++ toString (verifyPin w userId form.pin).2.now,
           form.merchantName, some "USD"⟩).2.1,
       (processTransaction (verifyPin w userId form.pin).2
          ⟨userId, device.id, form.amount,
           "MERCH_" ++ toString (verifyPin w userId form.pin).2.now,
           form.merchantName, some "USD"⟩).2.2) := by
  simp only [handlePayment, hv, if_true, hf]

lemma handlePayment_eq_of_registerError (w : World) (userId : String) (form : PaymentForm)
    (e : String) (hv : (verifyPin w userId form.pin).1 = true)
    (hf : (getUserDevices (verifyPin w userId form.pin).2 userId).find?
      (fun d => d.deviceUid == form.deviceUid) = none)
    (hr : registerNFCDevice (verifyPin w userId form.pin).2 userId form.deviceUid
      ("Device " ++ toString ((getUserDevices (verifyPin w userId form.pin).2 userId).length + 1))
      = Except.error e) :
    handlePayment w userId form =
      ([Step.pinVerification, Step.deviceResolution], Except.error e,
        (verifyPin w userId form.pin).2) := by
  simp only [handlePayment, hv, if_true, hf, hr]

lemma handlePayment_eq_of_registered (w : World) (userId : String) (form : PaymentForm)
    (dw : Device × World) (hv : (verifyPin w userId form.pin).1 = true)
    (hf : (getUserDevices (verifyPin w userId form.pin).2 userId).find?
      (fun d => d.deviceUid == form.deviceUid) = none)
    (hr : registerNFCDevice (verifyPin w userId form.pin).2 userId form.deviceUid
      ("Device " ++ toString ((getUserDevices (verifyPin w userId form.pin).2 userId).length + 1))
      = Except.ok dw) :
    handlePayment w userId form =
      (Step.pinVerification :: Step.deviceResolution ::
        (processTransaction dw.2
          ⟨userId, dw.1.id, form.amount, "MERCH_" ++ toString dw.2.now,
           form.merchantName, some "USD"⟩).1,
       (processTransaction dw.2
          ⟨userId, dw.1.id, form.amount, "MERCH_" ++ toString dw.2.now,
           form.merchantName, some "USD"⟩).2.1,
       (processTransaction dw.2
          ⟨userId, dw.1.id, form.amount, "MERCH_" ++ toString dw.2.now,
           form.merchantName, some "USD"⟩).2.2) := by
  simp only [handlePayment, hv, if_true, hf, hr]

/-- C4: whenever the payment pipeline returns an error — PIN failure,
device-registration failure, account-status failure, daily-limit failure
or insert failure — no Transaction record is persisted; every normal
return (including the declined outcome produced by risk scoring) persists
exactly the returned transaction. -/
theorem authorization_errors_do_not_persist (w : World) (userId : String) (form : PaymentForm) :
    (∀ e, (handlePayment w userId form).2.1 = Except.error e →
      (handlePayment w userId form).2.2.store.transactions = w.store.transactions) ∧
    (∀ txn, (handlePayment w userId form).2.1 = Except.ok txn →
      (handlePayment w userId form).2.2.store.transactions = w.store.transactions ++ [txn] ∧
      txn ∈ (handlePayment w userId form).2.2.store.transactions) := by
  have hvf := (verifyPin_frame w userId form.pin).1
  cases hv : (verifyPin w userId form.pin).1 with
  | false =>
    rw [handlePayment_eq_of_pinFail w userId form hv]
    exact ⟨fun e he => hvf, fun txn ht => by simp at ht⟩
  | true =>
    cases hf : (getUserDevices (verifyPin w userId form.pin).2 userId).find?
        (fun d => d.deviceUid == form.deviceUid) with
    | some device =>
      rw [handlePayment_eq_of_found w userId form device hv hf]
      constructor
      · intro e he
        have := processTransaction_error_world _ _ e he
        rw [this]
        exact hvf
      · intro txn ht
        have := processTransaction_ok_world _ _ txn ht
        rw [this, hvf]
        exact ⟨rfl, by simp⟩
    | none =>
      cases hr : registerNFCDevice (verifyPin w userId form.pin).2 userId form.deviceUid
          ("Device " ++ toString ((getUserDevices (verifyPin w userId form.pin).2 userId).length + 1)) with
      | error e0 =>
        rw [handlePayment_eq_of_registerError w userId form e0 hv hf hr]
        exact ⟨fun e he => hvf, fun txn ht => by simp at ht⟩
      | ok dw =>
        have hreg := registerNFCDevice_ok_frame _ userId form.deviceUid _ dw.1 dw.2
          (by rw [hr])
        rw [handlePayment_eq_of_registered w userId form dw hv hf hr]
        constructor
        · intro e he
          have := processTransaction_error_world _ _ e he
          rw [this, hreg.2.1, hvf]
        · intro txn ht
          have := processTransaction_ok_world _ _ txn ht
          rw [this, hreg.2.1, hvf]
          exact ⟨rfl, by simp⟩

lemma find?_map_update (users : List User) (uid : String) (f : User → User)
    (hid : ∀ u, (f u).id = u.id) :
    (users.map (fun v => if (v.id == uid) = true then f v else v)).find? (fun v => v.id == uid)
      = (users.find? (fun v => v.id == uid)).map f := by
  induction users with
  | nil => rfl
  | cons u us ih =>
    simp only [List.map_cons]
    by_cases hu : (u.id == uid) = true
    · rw [if_pos hu,
          List.find?_cons_of_pos (p := fun v : User => v.id == uid) _ (by simp only [hid]; exact hu),
          List.find?_cons_of_pos (p := fun v : User => v.id == uid) _ hu]
      rfl
    · rw [if_neg hu, List.find?_cons_of_neg (p := fun v : User => v.id == uid) _ hu,
          List.find?_cons_of_neg (p := fun v : User => v.id == uid) _ hu, ih]

lemma incrementFailedAuthAttempts_eq (w : World) (uid : String) (u : User)
    (hu : findUser w.store uid = some u) :
    incrementFailedAuthAttempts w uid =
      (let w1 : World := { w with store := updateUser w.store uid (fun v =>
        { v with failedAuthAttempts := u.failedAuthAttempts + 1,
                 lastFailedAuth := some w.now,
                 status := if u.failedAuthAttempts + 1 ≥ 5 then "locked" else "active" }) }
       if u.failedAuthAttempts + 1 ≥ 5 then
         logSecurityEvent w1 uid "account_locked" "critical"
           ("Account locked after " ++ toString (u.failedAuthAttempts + 1) ++ " failed attempts")
       else w1) := by
  unfold incrementFailedAuthAttempts
  rw [hu]

lemma verifyPin_wrong_eq (w : World) (uid pin : String) (u : User)
    (hp : w.faults.pinRead = false)
    (hu : findUser w.store uid = some u)
    (hb : (u.pinHash == hashPin pin) = false) :
    verifyPin w uid pin = (false,
      logSecurityEvent (incrementFailedAuthAttempts w uid) uid
        "invalid_pin" "high" "Invalid PIN entered") := by
  rw [verifyPin_eq_of_found w uid pin u (by simp [hp, hu]), hb]
  rfl

lemma verifyPin_right_eq (w : World) (uid pin : String) (u : User)
    (hp : w.faults.pinRead = false)
    (hu : findUser w.store uid = some u)
    (hb : (u.pinHash == hashPin pin) = true) :
    verifyPin w uid pin = (true, w) := by
  rw [verifyPin_eq_of_found w uid pin u (by simp [hp, hu]), hb]
  rfl

/-- C5 (amended): on a digest mismatch, verifyPin increments the user's
failed-authentication counter, appends an invalid_pin event with severity
high (escalated by an account_locked event when the counter reaches 5),
and fails; when the user's digest is missing (or the credential read
fails) it appends a pin_verification_failed event with severity medium,
leaves the users table untouched, and fails. -/
theorem pin_failure_behaviour (w : World) (uid pin : String)
    (hp : w.faults.pinRead = false) :
    (∀ u, findUser w.store uid = some u → u.pinHash ≠ hashPin pin →
      (verifyPin w uid pin).1 = false ∧
      (findUser (verifyPin w uid pin).2.store uid).map (fun v => v.failedAuthAttempts)
        = some (u.failedAuthAttempts + 1) ∧
      (verifyPin w uid pin).2.store.securityLogs = w.store.securityLogs
        ++ (if u.failedAuthAttempts + 1 ≥ 5 then
             [⟨uid, "account_locked", "critical",
               "Account locked after " ++ toString (u.failedAuthAttempts + 1) ++ " failed attempts"⟩]
            else [])
        ++ [⟨uid, "invalid_pin", "high", "Invalid PIN entered"⟩]) ∧
    (findUser w.store uid = none →
      (verifyPin w uid pin).1 = false ∧
      (verifyPin w uid pin).2.store.users = w.store.users ∧
      (verifyPin w uid pin).2.store.securityLogs = w.store.securityLogs
        ++ [⟨uid, "pin_verification_failed", "medium", "PIN verification failed"⟩]) := by
  constructor
  · intro u hu hne
    have hb : (u.pinHash == hashPin pin) = false := by
      simp [hne]
    rw [verifyPin_wrong_eq w uid pin u hp hu hb,
        incrementFailedAuthAttempts_eq w uid u hu]
    refine ⟨rfl, ?_, ?_⟩
    · have hu' : w.store.users.find? (fun v => v.id == uid) = some u := hu
      by_cases h5 : u.failedAuthAttempts + 1 ≥ 5
      · simp only [h5, if_true]
        dsimp only [logSecurityEvent, updateUser, findUser]
        rw [find?_map_update w.store.users uid (fun v =>
          { v with failedAuthAttempts := u.failedAuthAttempts + 1,
                   lastFailedAuth := some w.now, status := "locked" }) (fun v => rfl), hu']
        rfl
      · simp only [h5, if_false]
        dsimp only [logSecurityEvent, updateUser, findUser]
        rw [find?_map_update w.store.users uid (fun v =>
          { v with failedAuthAttempts := u.failedAuthAttempts + 1,
                   lastFailedAuth := some w.now, status := "active" }) (fun v => rfl), hu']
        rfl
    · by_cases h5 : u.failedAuthAttempts + 1 ≥ 5
      · simp [h5, logSecurityEvent, updateUser]
      · simp [h5, logSecurityEvent, updateUser]
  · intro hnone
    rw [verifyPin_eq_of_missing w uid pin (by simp [hp, hnone])]
    exact ⟨rfl, rfl, rfl⟩

/-- C6 (amended): a successful PIN verification returns success with the
world unchanged — the failed-authentication counter is not reset; the
counter is reset to 0 only by resetFailedAuthAttempts, which the
password sign-in flow invokes. -/
theorem pin_success_no_reset (w : World) (uid pin : String) (u : User)
    (hp : w.faults.pinRead = false)
    (hu : findUser w.store uid = some u)
    (hb : u.pinHash = hashPin pin) :
    verifyPin w uid pin = ((true : Bool), w) ∧
    (findUser (resetFailedAuthAttempts w uid).store uid).map
      (fun v => v.failedAuthAttempts) = some 0 := by
  constructor
  · exact verifyPin_right_eq w uid pin u hp hu (by simp [hb])
  · have hu' : w.store.users.find? (fun v => v.id == uid) = some u := hu
    dsimp only [resetFailedAuthAttempts, updateUser, findUser]
    rw [find?_map_update w.store.users uid (fun v =>
      { v with failedAuthAttempts := 0, lastFailedAuth := none }) (fun v => rfl), hu']
    rfl

/-- C10: after a failed authentication attempt, incrementFailedAuthAttempts
unconditionally writes status active while the new counter is below 5 —
so a failed attempt against a suspended account flips it back to active —
and writes locked once the counter reaches 5. -/
theorem failed_attempt_overwrites_status (w : World) (uid : String) (u : User)
    (hu : findUser w.store uid = some u) :
    (u.failedAuthAttempts + 1 < 5 →
      (findUser (incrementFailedAuthAttempts w uid).store uid).map
        (fun v => v.status) = some "active") ∧
    (u.failedAuthAttempts + 1 ≥ 5 →
      (findUser (incrementFailedAuthAttempts w uid).store uid).map
        (fun v => v.status) = some "locked") := by
  rw [incrementFailedAuthAttempts_eq w uid u hu]
  have hu' : w.store.users.find? (fun v => v.id == uid) = some u := hu
  constructor
  · intro hlt
    have h5 : ¬ u.failedAuthAttempts + 1 ≥ 5 := by omega
    simp only [h5, if_false]
    dsimp only [updateUser, findUser]
    rw [find?_map_update w.store.users uid (fun v =>
      { v with failedAuthAttempts := u.failedAuthAttempts + 1,
               lastFailedAuth := some w.now, status := "active" }) (fun v => rfl), hu']
    rfl
  · intro hge
    simp only [hge, if_true]
    dsimp only [logSecurityEvent, updateUser, findUser]
    rw [find?_map_update w.store.users uid (fun v =>
      { v with failedAuthAttempts := u.failedAuthAttempts + 1,
               lastFailedAuth := some w.now, status := "locked" }) (fun v => rfl), hu']
    rfl

lemma verifyPin_wrong_step (w : World) (uid pin : String) (u : User)
    (hp : w.faults.pinRead = false)
    (hu : findUser w.store uid = some u)
    (hne : u.pinHash ≠ hashPin pin)
    (hlt : ¬ u.failedAuthAttempts + 1 ≥ 5) :
    (verifyPin w uid pin).1 = false ∧
    findUser (verifyPin w uid pin).2.store uid =
      some { u with failedAuthAttempts := u.failedAuthAttempts + 1,
                    lastFailedAuth := some w.now, status := "active" } ∧
    (verifyPin w uid pin).2.faults = w.faults ∧
    (verifyPin w uid pin).2.now = w.now ∧
    (verifyPin w uid pin).2.store.securityLogs =
      w.store.securityLogs ++ [⟨uid, "invalid_pin", "high", "Invalid PIN entered"⟩] := by
  have hu' : w.store.users.find? (fun v => v.id == uid) = some u := hu
  rw [verifyPin_wrong_eq w uid pin u hp hu (by simp [hne]),
      incrementFailedAuthAttempts_eq w uid u hu]
  simp only [hlt, if_false]
  refine ⟨by trivial, ?_, by trivial, by trivial, ?_⟩
  · dsimp only [logSecurityEvent, updateUser, findUser]
    rw [find?_map_update w.store.users uid (fun v =>
      { v with failedAuthAttempts := u.failedAuthAttempts + 1,
               lastFailedAuth := some w.now, status := "active" }) (fun v => rfl), hu']
    rfl
  · simp [logSecurityEvent, updateUser]

lemma verifyPin_wrong_lock (w : World) (uid pin : String) (u : User)
    (hp : w.faults.pinRead = false)
    (hu : findUser w.store uid = some u)
    (hne : u.pinHash ≠ hashPin pin)
    (hge : u.failedAuthAttempts + 1 ≥ 5) :
    (verifyPin w uid pin).1 = false ∧
    findUser (verifyPin w uid pin).2.store uid =
      some { u with failedAuthAttempts := u.failedAuthAttempts + 1,
                    lastFailedAuth := some w.now, status := "locked" } ∧
    (verifyPin w uid pin).2.faults = w.faults ∧
    (verifyPin w uid pin).2.now = w.now ∧
    (verifyPin w uid pin).2.store.securityLogs =
      w.store.securityLogs ++
        [⟨uid, "account_locked", "critical",
          "Account locked after " ++ toString (u.failedAuthAttempts + 1) ++ " failed attempts"⟩,
         ⟨uid, "invalid_pin", "high", "Invalid PIN entered"⟩] := by
  have hu' : w.store.users.find? (fun v => v.id == uid) = some u := hu
  rw [verifyPin_wrong_eq w uid pin u hp hu (by simp [hne]),
      incrementFailedAuthAttempts_eq w uid u hu]
  simp only [hge, if_true]
  refine ⟨by trivial, ?_, by trivial, by trivial, ?_⟩
  · dsimp only [logSecurityEvent, updateUser, findUser]
    rw [find?_map_update w.store.users uid (fun v =>
      { v with failedAuthAttempts := u.failedAuthAttempts + 1,
               lastFailedAuth := some w.now, status := "locked" }) (fun v => rfl), hu']
    rfl
  · simp [logSecurityEvent, updateUser]

lemma verifyPin_true_world (w : World) (uid pin : String)
    (h : (verifyPin w uid pin).1 = true) : (verifyPin w uid pin).2 = w := by
  cases hm : (if w.faults.pinRead = true then none else findUser w.store uid) with
  | none => rw [verifyPin_eq_of_missing w uid pin hm] at h; simp at h
  | some u =>
    rw [verifyPin_eq_of_found w uid pin u hm] at h ⊢
    by_cases hb : (u.pinHash == hashPin pin) = true
    · rw [if_pos hb]
    · rw [if_neg hb] at h; simp at h

lemma checkAccountStatus_not_active (w : World) (uid : String) (u : User)
    (hu : findUser w.store uid = some u) (hs : u.status ≠ "active") :
    ∃ e, checkAccountStatus w uid = Except.error e := by
  unfold checkAccountStatus
  by_cases hf : w.faults.statusRead = true
  · exact ⟨"users read failed", by rw [if_pos hf]⟩
  · rw [if_neg hf, hu]
    refine ⟨"Account is not active", ?_⟩
    have hb : (u.status == "active") = false := by simp [hs]
    simp [hb]

lemma handlePayment_locked_fails (w : World) (uid : String) (form : PaymentForm) (u : User)
    (hu : findUser w.store uid = some u) (hs : u.status ≠ "active") :
    ∃ e, (handlePayment w uid form).2.1 = Except.error e := by
  cases hv : (verifyPin w uid form.pin).1 with
  | false =>
    exact ⟨"Invalid PIN", by rw [handlePayment_eq_of_pinFail w uid form hv]⟩
  | true =>
    have hw : (verifyPin w uid form.pin).2 = w := verifyPin_true_world w uid form.pin hv
    cases hf : (getUserDevices (verifyPin w uid form.pin).2 uid).find?
        (fun d => d.deviceUid == form.deviceUid) with
    | some device =>
      obtain ⟨e, hA⟩ := checkAccountStatus_not_active
        ((verifyPin w uid form.pin).2) uid u (by rw [hw]; exact hu) hs
      refine ⟨e, ?_⟩
      rw [handlePayment_eq_of_found w uid form device hv hf,
          processTransaction_eq_of_accountError _ _ e hA]
    | none =>
      cases hr : registerNFCDevice (verifyPin w uid form.pin).2 uid form.deviceUid
          ("Device " ++ toString ((getUserDevices (verifyPin w uid form.pin).2 uid).length + 1)) with
      | error e0 =>
        exact ⟨e0, by rw [handlePayment_eq_of_registerError w uid form e0 hv hf hr]⟩
      | ok dw =>
        have hreg := registerNFCDevice_ok_frame _ uid form.deviceUid _ dw.1 dw.2 (by rw [hr])
        have hu2 : findUser dw.2.store uid = some u := by
          unfold findUser
          rw [hreg.1, hw]
          exact hu
        obtain ⟨e, hA⟩ := checkAccountStatus_not_active dw.2 uid u hu2 hs
        refine ⟨e, ?_⟩
        rw [handlePayment_eq_of_registered w uid form dw hv hf hr,
            processTransaction_eq_of_accountError _ _ e hA]

/-- C7: five consecutive failed PIN verifications set the user's status to
locked and emit exactly one critical account_locked security event; a
sixth payment-authorization attempt then fails regardless of whether the
supplied PIN is correct. -/
theorem five_failed_pins_lock_account (w : World) (uid : String) (u : User)
    (p1 p2 p3 p4 p5 : String)
    (hp : w.faults.pinRead = false)
    (hu : findUser w.store uid = some u)
    (h0 : u.failedAuthAttempts = 0)
    (hn1 : u.pinHash ≠ hashPin p1) (hn2 : u.pinHash ≠ hashPin p2)
    (hn3 : u.pinHash ≠ hashPin p3) (hn4 : u.pinHash ≠ hashPin p4)
    (hn5 : u.pinHash ≠ hashPin p5) :
    (verifyPin w uid p1).1 = false ∧
    (verifyPin (failChain w uid [p1]) uid p2).1 = false ∧
    (verifyPin (failChain w uid [p1, p2]) uid p3).1 = false ∧
    (verifyPin (failChain w uid [p1, p2, p3]) uid p4).1 = false ∧
    (verifyPin (failChain w uid [p1, p2, p3, p4]) uid p5).1 = false ∧
    (findUser (failChain w uid [p1, p2, p3, p4, p5]).store uid).map
      (fun v => (v.status, v.failedAuthAttempts)) = some ("locked", 5) ∧
    (failChain w uid [p1, p2, p3, p4, p5]).store.securityLogs =
      w.store.securityLogs ++
        [⟨uid, "invalid_pin", "high", "Invalid PIN entered"⟩,
         ⟨uid, "invalid_pin", "high", "Invalid PIN entered"⟩,
         ⟨uid, "invalid_pin", "high", "Invalid PIN entered"⟩,
         ⟨uid, "invalid_pin", "high", "Invalid PIN entered"⟩,
         ⟨uid, "account_locked", "critical",
           "Account locked after " ++ toString (5 : Nat) ++ " failed attempts"⟩,
         ⟨uid, "invalid_pin", "high", "Invalid PIN entered"⟩] ∧
    (List.filter (fun e => e.eventType == "account_locked")
        [(⟨uid, "invalid_pin", "high", "Invalid PIN entered"⟩ : SecurityEvent),
         ⟨uid, "invalid_pin", "high", "Invalid PIN entered"⟩,
         ⟨uid, "invalid_pin", "high", "Invalid PIN entered"⟩,
         ⟨uid, "invalid_pin", "high", "Invalid PIN entered"⟩,
         ⟨uid, "account_locked", "critical",
           "Account locked after " ++ toString (5 : Nat) ++ " failed attempts"⟩,
         ⟨uid, "invalid_pin", "high", "Invalid PIN entered"⟩]) =
      [⟨uid, "account_locked", "critical",
        "Account locked after " ++ toString (5 : Nat) ++ " failed attempts"⟩] ∧
    (∀ form : PaymentForm, ∃ e,
      (handlePayment (failChain w uid [p1, p2, p3, p4, p5]) uid form).2.1 = Except.error e) := by
  obtain ⟨id0, em0, ph0, dl0, st0, fa0, lf0⟩ := u
  simp only at h0 hn1 hn2 hn3 hn4 hn5
  subst h0
  have hc1 : failChain w uid [p1] = (verifyPin w uid p1).2 := rfl
  have hc2 : failChain w uid [p1, p2] = (verifyPin (failChain w uid [p1]) uid p2).2 := rfl
  have hc3 : failChain w uid [p1, p2, p3] =
    (verifyPin (failChain w uid [p1, p2]) uid p3).2 := rfl
  have hc4 : failChain w uid [p1, p2, p3, p4] =
    (verifyPin (failChain w uid [p1, p2, p3]) uid p4).2 := rfl
  have hc5 : failChain w uid [p1, p2, p3, p4, p5] =
    (verifyPin (failChain w uid [p1, p2, p3, p4]) uid p5).2 := rfl
  obtain ⟨s1f, s1u, s1faults, s1now, s1logs⟩ :=
    verifyPin_wrong_step w uid p1 ⟨id0, em0, ph0, dl0, st0, 0, lf0⟩ hp hu hn1 (by simp)
  have f1 : (failChain w uid [p1]).faults.pinRead = false := by
    rw [hc1, s1faults]; exact hp
  have n1 : (failChain w uid [p1]).now = w.now := by
    rw [hc1]; exact s1now
  have l1 : (failChain w uid [p1]).store.securityLogs =
      w.store.securityLogs ++ [⟨uid, "invalid_pin", "high", "Invalid PIN entered"⟩] := by
    rw [hc1]; exact s1logs
  have u1 : findUser (failChain w uid [p1]).store uid =
      some ⟨id0, em0, ph0, dl0, "active", 1, some w.now⟩ := by
    rw [hc1]; exact s1u
  obtain ⟨s2f, s2u, s2faults, s2now, s2logs⟩ :=
    verifyPin_wrong_step (failChain w uid [p1]) uid p2
      ⟨id0, em0, ph0, dl0, "active", 1, some w.now⟩ f1 u1 hn2 (by simp)
  have f2 : (failChain w uid [p1, p2]).faults.pinRead = false := by
    rw [hc2, s2faults]; exact f1
  have n2 : (failChain w uid [p1, p2]).now = w.now := by
    rw [hc2, s2now]; exact n1
  have l2 : (failChain w uid [p1, p2]).store.securityLogs =
      w.store.securityLogs ++
        [⟨uid, "invalid_pin", "high", "Invalid PIN entered"⟩,
         ⟨uid, "invalid_pin", "high", "Invalid PIN entered"⟩] := by
    rw [hc2, s2logs, l1]
    simp
  have u2 : findUser (failChain w uid [p1, p2]).store uid =
      some ⟨id0, em0, ph0, dl0, "active", 2, some w.now⟩ := by
    rw [hc2, s2u, n1]
  obtain ⟨s3f, s3u, s3faults, s3now, s3logs⟩ :=
    verifyPin_wrong_step (failChain w uid [p1, p2]) uid p3
      ⟨id0, em0, ph0, dl0, "active", 2, some w.now⟩ f2 u2 hn3 (by simp)
  have f3 : (failChain w uid [p1, p2, p3]).faults.pinRead = false := by
    rw [hc3, s3faults]; exact f2
  have n3 : (failChain w uid [p1, p2, p3]).now = w.now := by
    rw [hc3, s3now]; exact n2
  have l3 : (failChain w uid [p1, p2, p3]).store.securityLogs =
      w.store.securityLogs ++
        [⟨uid, "invalid_pin", "high", "Invalid PIN entered"⟩,
         ⟨uid, "invalid_pin", "high", "Invalid PIN entered"⟩,
         ⟨uid, "invalid_pin", "high", "Invalid PIN entered"⟩] := by
    rw [hc3, s3logs, l2]
    simp
  have u3 : findUser (failChain w uid [p1, p2, p3]).store uid =
      some ⟨id0, em0, ph0, dl0, "active", 3, some w.now⟩ := by
    rw [hc3, s3u, n2]
  obtain ⟨s4f, s4u, s4faults, s4now, s4logs⟩ :=
    verifyPin_wrong_step (failChain w uid [p1, p2, p3]) uid p4
      ⟨id0, em0, ph0, dl0, "active", 3, some w.now⟩ f3 u3 hn4 (by simp)
  have f4 : (failChain w uid [p1, p2, p3, p4]).faults.pinRead = false := by
    rw [hc4, s4faults]; exact f3
  have n4 : (failChain w uid [p1, p2, p3, p4]).now = w.now := by
    rw [hc4, s4now]; exact n3
  have l4 : (failChain w uid [p1, p2, p3, p4]).store.securityLogs =
      w.store.securityLogs ++
        [⟨uid, "invalid_pin", "high", "Invalid PIN entered"⟩,
         ⟨uid, "invalid_pin", "high", "Invalid PIN entered"⟩,
         ⟨uid, "invalid_pin", "high", "Invalid PIN entered"⟩,
         ⟨uid, "invalid_pin", "high", "Invalid PIN entered"⟩] := by
    rw [hc4, s4logs, l3]
    simp
  have u4 : findUser (failChain w uid [p1, p2, p3, p4]).store uid =
      some ⟨id0, em0, ph0, dl0, "active", 4, some w.now⟩ := by
    rw [hc4, s4u, n3]
  obtain ⟨s5f, s5u, s5faults, s5now, s5logs⟩ :=
    verifyPin_wrong_lock (failChain w uid [p1, p2, p3, p4]) uid p5
      ⟨id0, em0, ph0, dl0, "active", 4, some w.now⟩ f4 u4 hn5 (by simp)
  have u5 : findUser (failChain w uid [p1, p2, p3, p4, p5]).store uid =
      some ⟨id0, em0, ph0, dl0, "locked", 5, some w.now⟩ := by
    rw [hc5, s5u, n4]
  refine ⟨s1f, s2f, s3f, s4f, s5f, ?_, ?_, ?_, ?_⟩
  · rw [u5]
    rfl
  · rw [hc5, s5logs, l4]
    simp
  · simp
  · intro form
    exact handlePayment_locked_fails (failChain w uid [p1, p2, p3, p4, p5]) uid form
      ⟨id0, em0, ph0, dl0, "locked", 5, some w.now⟩ u5 (by simp)

lemma registerNFCDevice_eq_of_dup (w : World) (userId deviceUid deviceName : String)
    (h : (w.store.devices.any (fun d => d.deviceUid == deviceUid)) = true) :
    registerNFCDevice w userId deviceUid deviceName =
      Except.error "duplicate key value violates unique constraint on device_uid" := by
  unfold registerNFCDevice
  rw [h]
  rfl

lemma registerNFCDevice_eq_of_fresh (w : World) (userId deviceUid deviceName : String)
    (h : (w.store.devices.any (fun d => d.deviceUid == deviceUid)) = false) :
    registerNFCDevice w userId deviceUid deviceName =
      Except.ok (⟨"dev-" ++ toString w.nextId, userId, deviceUid, deviceName, true, none⟩,
        logSecurityEvent
          { w with
            store := { w.store with devices := w.store.devices ++
              [⟨"dev-" ++ toString w.nextId, userId, deviceUid, deviceName, true, none⟩] },
            nextId := w.nextId + 1 }
          userId "nfc_device_registered" "low"
          ("NFC device registered: " ++ deviceName)) := by
  unfold registerNFCDevice
  rw [h]
  rfl

lemma riskScoring_mem_trace (w : World) (req : TransactionRequest) :
    Step.riskScoring ∈ (processTransaction w req).1 := by
  cases hA : checkAccountStatus w req.userId with
  | error e => rw [processTransaction_eq_of_accountError w req e hA]; simp
  | ok u =>
    cases u
    cases hL : checkDailyLimit w req.userId req.amount with
    | error e => rw [processTransaction_eq_of_limitError w req e hA hL]; simp
    | ok v =>
      cases v
      rw [processTransaction_eq_of_checks w req hA hL]
      by_cases hI : w.faults.txInsert = true
      · rw [if_pos hI]; simp
      · rw [if_neg hI]; simp

lemma processTransaction_devices (w : World) (req : TransactionRequest) :
    ∃ g : Device → Device,
      (∀ d, (g d).deviceUid = d.deviceUid ∧ (g d).userId = d.userId ∧
        (g d).isActive = d.isActive) ∧
      (processTransaction w req).2.2.store.devices = w.store.devices.map g := by
  cases hA : checkAccountStatus w req.userId with
  | error e =>
    refine ⟨id, fun d => ⟨rfl, rfl, rfl⟩, ?_⟩
    rw [processTransaction_eq_of_accountError w req e hA]
    simp
  | ok u =>
    cases u
    cases hL : checkDailyLimit w req.userId req.amount with
    | error e =>
      refine ⟨id, fun d => ⟨rfl, rfl, rfl⟩, ?_⟩
      rw [processTransaction_eq_of_limitError w req e hA hL]
      simp
    | ok v =>
      cases v
      by_cases hI : w.faults.txInsert = true
      · refine ⟨id, fun d => ⟨rfl, rfl, rfl⟩, ?_⟩
        rw [processTransaction_eq_of_checks w req hA hL, if_pos hI]
        simp
      · by_cases hap : (determineTransactionStatus (calculateRiskScore w req) == "approved") = true
        · refine ⟨fun d => if (d.id == req.deviceId) = true
            then { d with lastUsed := some w.now } else d, fun d => by dsimp only; split <;> exact ⟨rfl, rfl, rfl⟩, ?_⟩
          rw [processTransaction_eq_of_checks w req hA hL, if_neg hI]
          simp only [hap, if_true]
          rfl
        · refine ⟨id, fun d => ⟨rfl, rfl, rfl⟩, ?_⟩
          rw [processTransaction_eq_of_checks w req hA hL, if_neg hI]
          simp only [hap, if_false]
          simp [logSecurityEvent]

/-- C8 (amended): device resolution with a valid PIN behaves as follows —
an identifier registered to no one is auto-registered as exactly one new
active device owned by the authenticated user; an identifier registered
to a different user makes authorization fail (via the device-uid
uniqueness violation on registration) with no Transaction created; an
identifier registered to the user proceeds to risk scoring regardless of
the device's active flag (no DeviceInactive rejection exists). -/
theorem device_resolution_trichotomy (w : World) (uid : String) (form : PaymentForm)
    (u : User)
    (hp : w.faults.pinRead = false)
    (hu : findUser w.store uid = some u)
    (hpin : u.pinHash = hashPin form.pin) :
    ((∀ d ∈ w.store.devices, d.deviceUid ≠ form.deviceUid) →
      (handlePayment w uid form).2.2.store.devices.length = w.store.devices.length + 1 ∧
      ((handlePayment w uid form).2.2.store.devices.filter
        (fun d => d.deviceUid == form.deviceUid)).map (fun d => (d.userId, d.isActive))
        = [(uid, true)]) ∧
    ((∃ d ∈ w.store.devices, d.deviceUid = form.deviceUid) →
     (∀ d ∈ w.store.devices, d.deviceUid = form.deviceUid → d.userId ≠ uid) →
      (∃ e, (handlePayment w uid form).2.1 = Except.error e) ∧
      (handlePayment w uid form).2.2.store.transactions = w.store.transactions) ∧
    (∀ d, (getUserDevices w uid).find? (fun v => v.deviceUid == form.deviceUid) = some d →
      Step.riskScoring ∈ (handlePayment w uid form).1) := by
  have hvp : verifyPin w uid form.pin = ((true : Bool), w) :=
    verifyPin_right_eq w uid form.pin u hp hu (by simp [hpin])
  have hv : (verifyPin w uid form.pin).1 = true := by rw [hvp]
  refine ⟨?_, ?_, ?_⟩
  · intro hfresh
    have hf : (getUserDevices (verifyPin w uid form.pin).2 uid).find?
        (fun v => v.deviceUid == form.deviceUid) = none := by
      rw [hvp]
      rw [List.find?_eq_none]
      intro x hx
      simp only [getUserDevices, List.mem_filter] at hx
      simp [hfresh x hx.1]
    have hany : ((verifyPin w uid form.pin).2.store.devices.any
        (fun d => d.deviceUid == form.deviceUid)) = false := by
      rw [hvp]
      rw [List.any_eq_false]
      intro x hx
      simp [hfresh x hx]
    have hr := registerNFCDevice_eq_of_fresh (verifyPin w uid form.pin).2 uid
      form.deviceUid
      ("Device " ++ toString ((getUserDevices (verifyPin w uid form.pin).2 uid).length + 1))
      hany
    rw [handlePayment_eq_of_registered w uid form _ hv hf hr]
    obtain ⟨g, hg, hdev⟩ := processTransaction_devices _ _
    rw [hdev]
    constructor
    · rw [hvp]
      simp [logSecurityEvent]
    · rw [List.filter_map]
      have hpg : ((fun v => v.deviceUid == form.deviceUid) ∘ g) =
          (fun v => v.deviceUid == form.deviceUid) := by
        funext d
        simp [(hg d).1]
      rw [hpg, hvp]
      simp only [logSecurityEvent]
      have : ({ (w : World) with
          store := { w.store with devices := w.store.devices ++
            [⟨"dev-" ++ toString w.nextId, uid, form.deviceUid,
              "Device " ++ toString ((getUserDevices w uid).length + 1), true, none⟩] },
          nextId := w.nextId + 1 } : World).store.devices = w.store.devices ++
            [⟨"dev-" ++ toString w.nextId, uid, form.deviceUid,
              "Device " ++ toString ((getUserDevices w uid).length + 1), true, none⟩] := rfl
      rw [List.filter_append]
      have hnil : w.store.devices.filter (fun v => v.deviceUid == form.deviceUid) = [] := by
        rw [List.filter_eq_nil_iff]
        intro x hx
        simp [hfresh x hx]
      rw [hnil]
      simp [(hg _).2.1, (hg _).2.2]
  · intro hexists hforeign
    have hf : (getUserDevices (verifyPin w uid form.pin).2 uid).find?
        (fun v => v.deviceUid == form.deviceUid) = none := by
      rw [hvp]
      rw [List.find?_eq_none]
      intro x hx
      simp only [getUserDevices, List.mem_filter] at hx
      intro hcon
      simp only [beq_iff_eq] at hcon hx
      exact hforeign x hx.1 hcon hx.2
    have hany : ((verifyPin w uid form.pin).2.store.devices.any
        (fun d => d.deviceUid == form.deviceUid)) = true := by
      rw [hvp]
      rw [List.any_eq_true]
      obtain ⟨d, hd, hud⟩ := hexists
      exact ⟨d, hd, by simp [hud]⟩
    have hr := registerNFCDevice_eq_of_dup (verifyPin w uid form.pin).2 uid
      form.deviceUid
      ("Device " ++ toString ((getUserDevices (verifyPin w uid form.pin).2 uid).length + 1))
      hany
    rw [handlePayment_eq_of_registerError w uid form _ hv hf hr]
    rw [hvp]
    exact ⟨⟨_, rfl⟩, rfl⟩
  · intro d hd
    have hf : (getUserDevices (verifyPin w uid form.pin).2 uid).find?
        (fun v => v.deviceUid == form.deviceUid) = some d := by
      rw [hvp]
      exact hd
    rw [handlePayment_eq_of_found w uid form d hv hf]
    simp only [List.mem_cons]
    right
    right
    exact riskScoring_mem_trace _ _

/-- C9 (amended): a failed daily-total read is silently replaced by 0 and
a failed recent-transactions read by an empty history, and the request
proceeds on those defaults; only the account-status read and the
transaction insert surface their store failures as errors that abandon
the request. -/
theorem store_failures_defaulted_or_surfaced (w : World) (uid : String)
    (req : TransactionRequest) (m : Int) :
    (w.faults.dailyTotalRead = true → getDailyTransactionTotal w uid = 0) ∧
    (w.faults.recentRead = true → getRecentTransactions w uid m = []) ∧
    (w.faults.statusRead = true →
      (processTransaction w req).2.1 = Except.error "users read failed" ∧
      (processTransaction w req).2.2 = w) ∧
    (w.faults.txInsert = true →
      ∀ txn, (processTransaction w req).2.1 ≠ Except.ok txn) := by
  refine ⟨?_, ?_, ?_, ?_⟩
  · intro h
    simp [getDailyTransactionTotal, h]
  · intro h
    simp [getRecentTransactions, h]
  · intro h
    have hA : checkAccountStatus w req.userId = Except.error "users read failed" := by
      unfold checkAccountStatus
      rw [if_pos h]
    rw [processTransaction_eq_of_accountError w req _ hA]
    exact ⟨rfl, rfl⟩
  · intro h txn
    cases hA : checkAccountStatus w req.userId with
    | error e => rw [processTransaction_eq_of_accountError w req e hA]; simp
    | ok u =>
      cases u
      cases hL : checkDailyLimit w req.userId req.amount with
      | error e => rw [processTransaction_eq_of_limitError w req e hA hL]; simp
      | ok v =>
        cases v
        rw [processTransaction_eq_of_checks w req hA hL, if_pos h]
        simp


section

set_option allowUnsafeReducibility true

attribute [local semireducible] Rat.add Rat.sub Rat.mul Rat.div Rat.neg Rat.normalize Rat.inv Rat.ofScientific

/-- C2 witness: the risk-score formula evaluated on the concrete wC2 history,
where all four rules trigger (30+40+50+70 = 190) and the cap yields 100. -/
theorem riskScore_eq_min_rule_sum_witness :
    (wC2.faults.recentRead = false ∧ wC2.faults.dailyTotalRead = false) ∧
    (calculateRiskScore wC2 reqC2 = riskScoreSpec wC2 reqC2 ∧
     calculateRiskScore wC2 reqC2 ≤ 100) ∧
    calculateRiskScore wC2 reqC2 = 100 :=
  ⟨⟨rfl, rfl⟩, riskScore_eq_min_rule_sum wC2 reqC2 rfl rfl, by decide⟩

/-- C3 witness: the pipeline run on the healthy world persists an approved
risk-0 transaction satisfying the status-decision properties. -/
theorem status_decided_by_risk_witness :
    ((processTransaction wOK reqC3).2.1 = Except.ok txnC3) ∧
    (txnC3.status = determineTransactionStatus txnC3.riskScore ∧
     (80 ≤ txnC3.riskScore → txnC3.status = "declined" ∧
       txnC3.declineReason = some "High risk score") ∧
     (50 ≤ txnC3.riskScore → txnC3.riskScore < 80 → txnC3.status = "pending") ∧
     (txnC3.riskScore < 50 → txnC3.status = "approved") ∧
     (txnC3.declineReason ≠ none ↔ txnC3.status = "declined")) :=
  ⟨by rfl, status_decided_by_risk wOK reqC3 txnC3 (by rfl)⟩

/-- C4 witness: the suspended-account run errors and leaves the
transactions table untouched. -/
theorem authorization_errors_do_not_persist_witness :
    ((handlePayment wC1 "u1" formC1).2.1 = Except.error "Account is not active") ∧
    (handlePayment wC1 "u1" formC1).2.2.store.transactions = wC1.store.transactions :=
  ⟨by rfl, (authorization_errors_do_not_persist wC1 "u1" formC1).1
    "Account is not active" (by rfl)⟩

/-- C5 counterexample: a wrong PIN against wOK fails and logs the
invalid_pin event with severity high; no medium invalid_pin event is
appended, contrary to the claim. -/
theorem invalid_pin_severity_counterexample :
    (verifyPin wOK "u1" "9999").1 = false ∧
    (verifyPin wOK "u1" "9999").2.store.securityLogs =
      [⟨"u1", "invalid_pin", "high", "Invalid PIN entered"⟩] ∧
    ((verifyPin wOK "u1" "9999").2.store.securityLogs.filter
      (fun e => e.eventType == "invalid_pin" && e.severity == "medium")) = [] :=
  ⟨rfl, rfl, rfl⟩

/-- C5 witness: the amended failure behaviour instantiated at wOK with
PIN 9999. -/
theorem pin_failure_behaviour_witness :
    wOK.faults.pinRead = false ∧
    ((∀ u, findUser wOK.store "u1" = some u → u.pinHash ≠ hashPin "9999" →
      (verifyPin wOK "u1" "9999").1 = false ∧
      (findUser (verifyPin wOK "u1" "9999").2.store "u1").map
        (fun v => v.failedAuthAttempts) = some (u.failedAuthAttempts + 1) ∧
      (verifyPin wOK "u1" "9999").2.store.securityLogs = wOK.store.securityLogs
        ++ (if u.failedAuthAttempts + 1 ≥ 5 then
             [⟨"u1", "account_locked", "critical",
               "Account locked after " ++ toString (u.failedAuthAttempts + 1)
                 ++ " failed attempts"⟩]
            else [])
        ++ [⟨"u1", "invalid_pin", "high", "Invalid PIN entered"⟩]) ∧
    (findUser wOK.store "u1" = none →
      (verifyPin wOK "u1" "9999").1 = false ∧
      (verifyPin wOK "u1" "9999").2.store.users = wOK.store.users ∧
      (verifyPin wOK "u1" "9999").2.store.securityLogs = wOK.store.securityLogs
        ++ [⟨"u1", "pin_verification_failed", "medium", "PIN verification failed"⟩])) :=
  ⟨rfl, pin_failure_behaviour wOK "u1" "9999" rfl⟩

/-- C6 counterexample: a successful PIN verification for a user with three
failed attempts on record leaves the counter at 3, contrary to the claim
that it resets to 0. -/
theorem pin_success_reset_counterexample :
    (verifyPin wCtr3 "u1" "1234").1 = true ∧
    (findUser (verifyPin wCtr3 "u1" "1234").2.store "u1").map
      (fun v => v.failedAuthAttempts) = some 3 :=
  ⟨rfl, rfl⟩

/-- C6 witness: the amended no-reset behaviour instantiated at wCtr3. -/
theorem pin_success_no_reset_witness :
    (wCtr3.faults.pinRead = false ∧ findUser wCtr3.store "u1" = some uCtr3 ∧
     uCtr3.pinHash = hashPin "1234") ∧
    (verifyPin wCtr3 "u1" "1234" = ((true : Bool), wCtr3) ∧
     (findUser (resetFailedAuthAttempts wCtr3 "u1").store "u1").map
       (fun v => v.failedAuthAttempts) = some 0) :=
  ⟨⟨rfl, rfl, rfl⟩, pin_success_no_reset wCtr3 "u1" "1234" uCtr3 rfl rfl rfl⟩

/-- C7 witness: five wrong PINs against wOK lock the account, log exactly
one critical account_locked event, and a sixth payment attempt fails. -/
theorem five_failed_pins_lock_account_witness :
    (wOK.faults.pinRead = false ∧ findUser wOK.store "u1" = some uOK ∧
     uOK.failedAuthAttempts = 0 ∧ uOK.pinHash ≠ hashPin "0000") ∧
    ((verifyPin wOK "u1" "0000").1 = false ∧
     (verifyPin (failChain wOK "u1" ["0000"]) "u1" "0000").1 = false ∧
     (verifyPin (failChain wOK "u1" ["0000", "0000"]) "u1" "0000").1 = false ∧
     (verifyPin (failChain wOK "u1" ["0000", "0000", "0000"]) "u1" "0000").1 = false ∧
     (verifyPin (failChain wOK "u1" ["0000", "0000", "0000", "0000"]) "u1" "0000").1 = false ∧
     (findUser (failChain wOK "u1" ["0000", "0000", "0000", "0000", "0000"]).store "u1").map
       (fun v => (v.status, v.failedAuthAttempts)) = some ("locked", 5) ∧
     (failChain wOK "u1" ["0000", "0000", "0000", "0000", "0000"]).store.securityLogs =
       wOK.store.securityLogs ++
         [⟨"u1", "invalid_pin", "high", "Invalid PIN entered"⟩,
          ⟨"u1", "invalid_pin", "high", "Invalid PIN entered"⟩,
          ⟨"u1", "invalid_pin", "high", "Invalid PIN entered"⟩,
          ⟨"u1", "invalid_pin", "high", "Invalid PIN entered"⟩,
          ⟨"u1", "account_locked", "critical",
            "Account locked after " ++ toString (5 : Nat) ++ " failed attempts"⟩,
          ⟨"u1", "invalid_pin", "high", "Invalid PIN entered"⟩] ∧
     (List.filter (fun e => e.eventType == "account_locked")
         [(⟨"u1", "invalid_pin", "high", "Invalid PIN entered"⟩ : SecurityEvent),
          ⟨"u1", "invalid_pin", "high", "Invalid PIN entered"⟩,
          ⟨"u1", "invalid_pin", "high", "Invalid PIN entered"⟩,
          ⟨"u1", "invalid_pin", "high", "Invalid PIN entered"⟩,
          ⟨"u1", "account_locked", "critical",
            "Account locked after " ++ toString (5 : Nat) ++ " failed attempts"⟩,
          ⟨"u1", "invalid_pin", "high", "Invalid PIN entered"⟩]) =
       [⟨"u1", "account_locked", "critical",
         "Account locked after " ++ toString (5 : Nat) ++ " failed attempts"⟩] ∧
     (∀ form : PaymentForm, ∃ e,
       (handlePayment (failChain wOK "u1" ["0000", "0000", "0000", "0000", "0000"]) "u1"
         form).2.1 = Except.error e)) :=
  ⟨⟨rfl, rfl, rfl, by decide⟩,
   five_failed_pins_lock_account wOK "u1" uOK "0000" "0000" "0000" "0000" "0000"
     rfl rfl rfl (by decide) (by decide) (by decide) (by decide) (by decide)⟩

/-- C8 counterexample: a payment from the user's own deactivated device is
not rejected with DeviceInactive; it proceeds and persists an approved
transaction. -/
theorem inactive_device_counterexample :
    wC8x.store.devices.map (fun d => (d.userId, d.isActive)) = [("u1", false)] ∧
    ((handlePayment wC8x "u1" formC1).2.1.map
      (fun t => (t.status, t.riskScore, t.declineReason))) =
      Except.ok ("approved", 0, none) ∧
    (handlePayment wC8x "u1" formC1).2.2.store.transactions.length = 1 := by
  refine ⟨rfl, by rfl, by rfl⟩

/-- C8 witness: the amended device-resolution behaviour instantiated at the
healthy world with an unregistered identifier. -/
theorem device_resolution_trichotomy_witness :
    (wOK.faults.pinRead = false ∧ findUser wOK.store "u1" = some uOK ∧
     uOK.pinHash = hashPin formFresh.pin) ∧
    (((∀ d ∈ wOK.store.devices, d.deviceUid ≠ formFresh.deviceUid) →
      (handlePayment wOK "u1" formFresh).2.2.store.devices.length =
        wOK.store.devices.length + 1 ∧
      ((handlePayment wOK "u1" formFresh).2.2.store.devices.filter
        (fun d => d.deviceUid == formFresh.deviceUid)).map
          (fun d => (d.userId, d.isActive)) = [("u1", true)]) ∧
    ((∃ d ∈ wOK.store.devices, d.deviceUid = formFresh.deviceUid) →
     (∀ d ∈ wOK.store.devices, d.deviceUid = formFresh.deviceUid → d.userId ≠ "u1") →
      (∃ e, (handlePayment wOK "u1" formFresh).2.1 = Except.error e) ∧
      (handlePayment wOK "u1" formFresh).2.2.store.transactions =
        wOK.store.transactions) ∧
    (∀ d, (getUserDevices wOK "u1").find?
        (fun v => v.deviceUid == formFresh.deviceUid) = some d →
      Step.riskScoring ∈ (handlePayment wOK "u1" formFresh).1)) :=
  ⟨⟨rfl, rfl, rfl⟩, device_resolution_trichotomy wOK "u1" formFresh uOK rfl rfl rfl⟩

/-- C9 counterexample: with the daily-total read failing, the stored 5000
of approved spending reads as 0, the limit check that would reject the 400
request passes, and the pipeline persists an approved transaction instead
of surfacing the store failure. -/
theorem silent_default_counterexample :
    wC9x.faults.dailyTotalRead = true ∧
    getDailyTransactionTotal wC9x "u1" = 0 ∧
    getDailyTransactionTotal wC9ok "u1" = 5000 ∧
    checkDailyLimit wC9ok "u1" 400 = Except.error "Daily transaction limit exceeded" ∧
    ((processTransaction wC9x reqC9).2.1.map (fun t => (t.status, t.riskScore))) =
      Except.ok ("approved", 0) ∧
    (processTransaction wC9x reqC9).2.2.store.transactions.length = 2 :=
  ⟨rfl, by decide, by decide, by rfl, by rfl, by rfl⟩

/-- C9 witness: the amended failure behaviour instantiated at the world
where every store call fails. -/
theorem store_failures_witness :
    (wAllFaults.faults.dailyTotalRead = true ∧ wAllFaults.faults.recentRead = true ∧
     wAllFaults.faults.statusRead = true ∧ wAllFaults.faults.txInsert = true) ∧
    getDailyTransactionTotal wAllFaults "u1" = 0 ∧
    getRecentTransactions wAllFaults "u1" 5 = [] ∧
    (processTransaction wAllFaults reqC3).2.1 = Except.error "users read failed" ∧
    (processTransaction wAllFaults reqC3).2.2 = wAllFaults :=
  ⟨⟨rfl, rfl, rfl, rfl⟩,
   (store_failures_defaulted_or_surfaced wAllFaults "u1" reqC3 5).1 rfl,
   (store_failures_defaulted_or_surfaced wAllFaults "u1" reqC3 5).2.1 rfl,
   ((store_failures_defaulted_or_surfaced wAllFaults "u1" reqC3 5).2.2.1 rfl).1,
   ((store_failures_defaulted_or_surfaced wAllFaults "u1" reqC3 5).2.2.1 rfl).2⟩

/-- C10 witness: one failed attempt against the suspended account rewrites
its status to active. -/
theorem failed_attempt_overwrites_status_witness :
    (findUser wC1.store "u1" = some uSuspended ∧
     uSuspended.failedAuthAttempts + 1 < 5 ∧ uSuspended.status = "suspended") ∧
    (findUser (incrementFailedAuthAttempts wC1 "u1").store "u1").map
      (fun v => v.status) = some "active" :=
  ⟨⟨rfl, by decide, rfl⟩,
   (failed_attempt_overwrites_status wC1 "u1" uSuspended rfl).1 (by decide)⟩

end


end NfcArmor
